import Mathlib

/-!
Verification development for the PLONK batch verifier (pairing/plonk/src/verifier.rs)
and the kimchi prover index assembler (kimchi/src/prover_index.rs).

The embedding is shallow: field elements live in an arbitrary `Field F`, curve points
(commitments) in an arbitrary module `G` over `F`, and the external collaborators
(the Fq-sponge, the polynomial interpolation routine of ff_fft, and the batched
opening check `urs.verify`) are abstracted as function parameters, exactly at the
interface boundary the source code uses them through.
-/

namespace PlonkPairing

/-- One operation performed on the Fq-sponge transcript. The sponge interface used by
verifier.rs is `absorb_fr`, `absorb_g` and `challenge`; a deterministic sponge's output
is a function of its initialization parameters and the sequence of operations performed
so far, which is what the trace records. -/
inductive SpongeOp (F G : Type) where
  | absorbFr : List F → SpongeOp F G
  | absorbG : List G → SpongeOp F G
  | squeeze : SpongeOp F G

/-- State of the Fq-sponge: its initialization parameters and the trace of operations
performed on it since `new`. -/
structure FqSpongeState (F G P : Type) where
  params : P
  trace : List (SpongeOp F G)

/-- `EFqSponge::new(params)`: a fresh sponge with an empty trace. -/
def FqSpongeState.new {F G P : Type} (params : P) : FqSpongeState F G P :=
  { params := params, trace := [] }

/-- `fq_sponge.absorb_fr(xs)`. -/
def FqSpongeState.absorb_fr {F G P : Type} (s : FqSpongeState F G P) (xs : List F) :
    FqSpongeState F G P :=
  { params := s.params, trace := s.trace ++ [SpongeOp.absorbFr xs] }

/-- `fq_sponge.absorb_g(gs)`. -/
def FqSpongeState.absorb_g {F G P : Type} (s : FqSpongeState F G P) (gs : List G) :
    FqSpongeState F G P :=
  { params := s.params, trace := s.trace ++ [SpongeOp.absorbG gs] }

/-- `fq_sponge.challenge()`: records a squeeze and returns the challenge value, which for
an arbitrary deterministic sponge is an arbitrary function `chal` of the parameters and
the trace (the squeeze marker included, so successive squeezes may differ). -/
def FqSpongeState.challenge {F G P : Type} (chal : P → List (SpongeOp F G) → F)
    (s : FqSpongeState F G P) : F × FqSpongeState F G P :=
  (chal s.params (s.trace ++ [SpongeOp.squeeze]),
   { params := s.params, trace := s.trace ++ [SpongeOp.squeeze] })

/-- The five challenges derived by `ProverProof::oracles` (struct `RandomOracles` of
prover.rs, restricted to the fields verifier.rs reads and writes). -/
structure RandomOracles (F : Type) where
  beta : F
  gamma : F
  alpha : F
  zeta : F
  v : F

/-- The claimed evaluations carried by a proof (struct `ProofEvaluations`, restricted to
the fields verifier.rs reads: a, b, c, z, sigma1, sigma2, r). -/
structure ProofEvals (F : Type) where
  a : F
  b : F
  c : F
  z : F
  sigma1 : F
  sigma2 : F
  r : F

/-- A PLONK proof as consumed by verifier.rs: public values, the witness-column
commitments, the permutation-accumulator commitment, the three quotient chunk
commitments, two opening proofs (opaque to this code) and the claimed evaluations. -/
structure ProverProof (F G Prf : Type) where
  public : List F
  a_comm : G
  b_comm : G
  c_comm : G
  z_comm : G
  tlow_comm : G
  tmid_comm : G
  thgh_comm : G
  proof1 : Prf
  proof2 : Prf
  evals : ProofEvals F

/-- The evaluation domain as read by verifier.rs: its size and its group generator. -/
structure Domain (F : Type) where
  size : ℕ
  group_gen : F

/-- The verifier index, restricted to the fields verifier.rs reads. The polynomial `l1`
is represented by its evaluation function (only `l1.evaluate` is used); `r` and `o` are
the permutation-argument shift scalars; `urs` is abstracted as the `ursVerify` parameter
of `verify` below. -/
structure Index (F G P : Type) where
  domain : Domain F
  l1 : F → F
  qm_comm : G
  ql_comm : G
  qr_comm : G
  qo_comm : G
  qc_comm : G
  sigma_comm : Fin 3 → G
  r : F
  o : F
  fq_sponge_params : P

/-- Modelled from the spec: the `ProofError` type of the external oracle crate
(oracle/src/rndoracle.rs, not under src/). The spec's error taxonomy distinguishes a
malformed-proof error from the opening-proof-invalid error; verifier.rs itself only ever
constructs `OpenProof`. -/
inductive ProofError where
  | OpenProof
  | MalformedProof

/-- One batch opening entry as pushed by `verify`: an evaluation point, the combination
challenge `v`, the list of (commitment, claimed evaluation, degree bound) triples, and
the opening proof. -/
structure BatchEntry (F G Prf : Type) where
  pt : F
  v : F
  items : List (G × F × Option ℕ)
  opening : Prf

variable {F G P Prf : Type} [Field F] [AddCommGroup G] [Module F G]

/-- `VariableBaseMSM::multi_scalar_mul`: the weighted sum of the points by the scalars. -/
def multi_scalar_mul (points : List G) (scalars : List F) : G :=
  (points.zip scalars).foldl (fun acc pc => acc + pc.2 • pc.1) 0

/-- Body of `ProverProof::oracles`: the straight-line sponge transcript of verifier.rs
lines 114-134, one `let` per source statement, returning the oracles and the final
sponge state. -/
def oraclesAux (chal : P → List (SpongeOp F G) → F) (index : Index F G P)
    (proof : ProverProof F G Prf) : RandomOracles F × FqSpongeState F G P :=
  let s0 : FqSpongeState F G P := FqSpongeState.new index.fq_sponge_params
  let s1 := s0.absorb_fr proof.public
  let s2 := s1.absorb_g [proof.a_comm, proof.b_comm, proof.c_comm]
  let c1 := s2.challenge chal
  let c2 := c1.2.challenge chal
  let s3 := c2.2.absorb_g [proof.z_comm]
  let c3 := s3.challenge chal
  let s4 := c3.2.absorb_g [proof.tlow_comm, proof.tmid_comm, proof.thgh_comm]
  let c4 := s4.challenge chal
  let c5 := c4.2.challenge chal
  ({ beta := c1.1, gamma := c2.1, alpha := c3.1, zeta := c4.1, v := c5.1 }, c5.2)

/-- `ProverProof::oracles`: runs the transcript and returns the oracles; the source
always returns `Ok`. -/
def ProverProof.oracles (chal : P → List (SpongeOp F G) → F) (index : Index F G P)
    (proof : ProverProof F G Prf) : Except ProofError (RandomOracles F) :=
  Except.ok (oraclesAux chal index proof).1

/-- `ab` of verifier.rs lines 47-48. -/
def ab (oracles : RandomOracles F) (e : ProofEvals F) : F :=
  (e.a + oracles.beta * e.sigma1 + oracles.gamma) *
    (e.b + oracles.beta * e.sigma2 + oracles.gamma) * oracles.alpha

/-- `t_comm` of verifier.rs lines 41-45: `zeta2 = zeta^n`, `zeta3 = zeta2^n`, then the
multi-scalar combination of the quotient chunk commitments with weights 1, zeta2, zeta3. -/
def t_comm (index : Index F G P) (oracles : RandomOracles F)
    (proof : ProverProof F G Prf) : G :=
  let zeta2 := oracles.zeta ^ index.domain.size
  let zeta3 := zeta2 ^ index.domain.size
  multi_scalar_mul [proof.tlow_comm, proof.tmid_comm, proof.thgh_comm] [1, zeta2, zeta3]

/-- `t` of verifier.rs lines 50-54, with the interpolation of the public values (ff_fft's
`Evaluations::from_vec_and_domain(..).interpolate().evaluate(zeta)`) abstracted as the
collaborator function `interp`. -/
def t_eval (interp : Domain F → List F → F → F) (index : Index F G P)
    (oracles : RandomOracles F) (proof : ProverProof F G Prf) : F :=
  let zeta2 := oracles.zeta ^ index.domain.size
  (proof.evals.r + interp index.domain proof.public oracles.zeta -
    ab oracles proof.evals * (proof.evals.c + oracles.gamma) * proof.evals.z -
    index.l1 oracles.zeta) / (zeta2 - 1)

/-- `r_comm` of verifier.rs lines 56-70: the linearization commitment as a multi-scalar
combination of the selector commitments, `z_comm` and `sigma_comm[2]`. -/
def r_comm (index : Index F G P)
    (oracles : RandomOracles F) (proof : ProverProof F G Prf) : G :=
  multi_scalar_mul
    [index.qm_comm, index.ql_comm, index.qr_comm, index.qo_comm, index.qc_comm,
     proof.z_comm, index.sigma_comm 2]
    [proof.evals.a * proof.evals.b, proof.evals.a, proof.evals.b, proof.evals.c, 1,
     ((proof.evals.a + oracles.beta * oracles.zeta + oracles.gamma) *
        (proof.evals.b + oracles.beta * index.r * oracles.zeta + oracles.gamma) *
        (proof.evals.c + oracles.beta * index.o * oracles.zeta + oracles.gamma) *
        proof.evals.z) * oracles.alpha +
       index.l1 oracles.zeta * oracles.alpha ^ 2,
     ab oracles proof.evals * oracles.beta * proof.evals.z]

/-- The two batch entries pushed for one proof (verifier.rs lines 72-94): one at `zeta`
with seven (commitment, evaluation) pairs, one at `zeta * group_gen` with only the
permutation accumulator. -/
def proofEntries (interp : Domain F → List F → F → F) (index : Index F G P)
    (oracles : RandomOracles F) (proof : ProverProof F G Prf) :
    List (BatchEntry F G Prf) :=
  [{ pt := oracles.zeta, v := oracles.v,
     items :=
       [(t_comm index oracles proof, t_eval interp index oracles proof, none),
        (r_comm index oracles proof, proof.evals.r, none),
        (proof.a_comm, proof.evals.a, none),
        (proof.b_comm, proof.evals.b, none),
        (proof.c_comm, proof.evals.c, none),
        (index.sigma_comm 0, proof.evals.sigma1, none),
        (index.sigma_comm 1, proof.evals.sigma2, none)],
     opening := proof.proof1 },
   { pt := oracles.zeta * index.domain.group_gen, v := oracles.v,
     items := [(proof.z_comm, proof.evals.z, none)],
     opening := proof.proof2 }]

/-- The batch-building loop of `verify` (verifier.rs lines 33-95): iterate over the
proofs, derive the oracles of each (propagating a possible error as the source's `?`
does) and append that proof's two entries to the accumulator. -/
def verifyBatchList (chal : P → List (SpongeOp F G) → F)
    (interp : Domain F → List F → F → F) (index : Index F G P) :
    List (ProverProof F G Prf) → List (BatchEntry F G Prf) →
      Except ProofError (List (BatchEntry F G Prf))
  | [], batch => Except.ok batch
  | proof :: rest, batch =>
    match ProverProof.oracles chal index proof with
    | Except.error e => Except.error e
    | Except.ok oracles =>
      verifyBatchList chal interp index rest (batch ++ proofEntries interp index oracles proof)

/-- `ProverProof::verify` (verifier.rs lines 23-101): build the batch, submit it to the
batched opening check `urs.verify` (abstracted as `ursVerify`, the randomness source
folded into it), and map `false` to `Err(OpenProof)`, `true` to `Ok(true)`. -/
def ProverProof.verify (chal : P → List (SpongeOp F G) → F)
    (interp : Domain F → List F → F → F)
    (ursVerify : List (BatchEntry F G Prf) → Bool)
    (proofs : List (ProverProof F G Prf)) (index : Index F G P) :
    Except ProofError Bool :=
  match verifyBatchList chal interp index proofs [] with
  | Except.error e => Except.error e
  | Except.ok batch =>
    match ursVerify batch with
    | false => Except.error ProofError.OpenProof
    | true => Except.ok true

/-- The commitment of the first (commitment, evaluation) pair of the first batch entry,
when the batch-building loop succeeds. -/
def firstTComm (res : Except ProofError (List (BatchEntry F G Prf))) : Option G :=
  match res with
  | Except.ok (e :: _) => e.items.head?.map Prod.fst
  | _ => none

end PlonkPairing

namespace Kimchi

/-- The `d1` evaluation domain of the kimchi constraint system, restricted to the field
prover_index.rs reads (`size`, a u64 read as a natural number). -/
structure KDomain where
  size : ℕ

/-- The domain aggregate `cs.domain` (only `d1` is read). -/
structure Domains where
  d1 : KDomain

/-- The kimchi `ConstraintSystem`, restricted to the fields prover_index.rs reads or
writes: the number of public inputs, the domain, the late-bound endomorphism scalar,
the optional chacha columns (only `is_some()` is read) and the lookup configuration
(passed through opaquely). -/
structure ConstraintSystem (F LCS : Type) where
  public : ℕ
  domain : Domains
  endo : F
  chacha8 : Option Unit
  lookup_constraint_system : LCS

/-- The commitment setup, restricted to the field prover_index.rs reads: the basis `g`
(only its length is read). -/
structure SRS (G : Type) where
  g : List G

/-- Failure of the capacity assertion of `ProverIndex::create` (source line 69:
"polynomial segment size has to be not smaller that that of the circuit!"), the
configuration error of the spec's error taxonomy. -/
inductive ConfigError where
  | SrsTooSmall

/-- The `ProverIndex` struct of prover_index.rs, with the linearization and alpha
bookkeeping produced by the external `expr_linearization` held opaquely. -/
structure ProverIndex (F G P Lin Alph LCS : Type) where
  cs : ConstraintSystem F LCS
  linearization : Lin
  powers_of_alpha : Alph
  srs : SRS G
  max_poly_size : ℕ
  max_quot_size : ℕ
  fq_sponge_params : P

/-- Modelled from the spec: the constant `PERMUTS` of kimchi's circuits/wires.rs is not
under src/; the spec fixes the permutation width at 7 ("for domain size 8 and
permutation width 7, max_quot_size must equal 56"). -/
def PERMUTS : ℕ := 7

variable {F G P Lin Alph LCS : Type}

/-- `ProverIndex::create` (prover_index.rs lines 61-98): the capacity assertion (a panic
in the source, modelled as the configuration error) guards only the `public > 0` case;
then the endomorphism scalar is injected, the linearization is computed by the external
collaborator `expr_linearization`, and `max_quot_size = PERMUTS * domain size`. -/
def ProverIndex.create (expr_linearization : KDomain → Bool → LCS → Lin × Alph)
    (cs : ConstraintSystem F LCS) (fq_sponge_params : P) (endo_q : F) (srs : SRS G) :
    Except ConfigError (ProverIndex F G P Lin Alph LCS) :=
  let max_poly_size := srs.g.length
  if 0 < cs.public ∧ max_poly_size < cs.domain.d1.size then
    Except.error ConfigError.SrsTooSmall
  else
    let cs2 := { cs with endo := endo_q }
    let la := expr_linearization cs2.domain.d1 cs2.chacha8.isSome cs2.lookup_constraint_system
    let max_quot_size := PERMUTS * cs2.domain.d1.size
    Except.ok
      { cs := cs2, linearization := la.1, powers_of_alpha := la.2, srs := srs,
        max_poly_size := max_poly_size, max_quot_size := max_quot_size,
        fq_sponge_params := fq_sponge_params }

end Kimchi

/-! Concrete instances used by the witnesses and counterexamples: the scalar field and
the commitment group are both the prime field with 11 elements, the sponge parameters
and the opening proofs are trivial, and the external collaborators are fixed simple
functions. -/

/-- The concrete field of the witnesses. -/
abbrev Fc := ZMod 11

instance : Fact (Nat.Prime 11) := ⟨by norm_num⟩

/-- A concrete sponge challenge function: the length of the trace so far, as a field
element. -/
def chalc : Unit → List (PlonkPairing.SpongeOp Fc Fc) → Fc := fun _ tr => (tr.length : Fc)

/-- A concrete sponge challenge function that returns 2 for every squeeze. -/
def chalTwo : Unit → List (PlonkPairing.SpongeOp Fc Fc) → Fc := fun _ _ => 2

/-- A concrete stand-in for the external interpolation collaborator. -/
def interpc : PlonkPairing.Domain Fc → List Fc → Fc → Fc :=
  fun _ pub zeta => pub.foldl (fun acc x => acc + x) 0 * zeta

/-- A concrete verifier index over a domain of size 3 with generator 2. -/
def index0 : PlonkPairing.Index Fc Fc Unit :=
  { domain := { size := 3, group_gen := 2 },
    l1 := fun zeta => zeta,
    qm_comm := 1, ql_comm := 2, qr_comm := 3, qo_comm := 4, qc_comm := 5,
    sigma_comm := fun i => (i.val : Fc),
    r := 2, o := 3,
    fq_sponge_params := () }

/-- A concrete proof. -/
def proof0 : PlonkPairing.ProverProof Fc Fc Unit :=
  { public := [1, 2],
    a_comm := 1, b_comm := 2, c_comm := 3, z_comm := 4,
    tlow_comm := 5, tmid_comm := 6, thgh_comm := 7,
    proof1 := (), proof2 := (),
    evals := { a := 1, b := 2, c := 3, z := 4, sigma1 := 5, sigma2 := 6, r := 7 } }

/-- A proof agreeing with `proof0` on the public values and all commitments but carrying
different claimed evaluations. -/
def proof0var : PlonkPairing.ProverProof Fc Fc Unit :=
  { proof0 with
    evals := { a := 9, b := 8, c := 7, z := 6, sigma1 := 5, sigma2 := 4, r := 3 } }

/-- A proof whose quotient chunk commitments are (0, 0, 1), isolating the scalar weight
applied to the high chunk. -/
def proofC2 : PlonkPairing.ProverProof Fc Fc Unit :=
  { proof0 with tlow_comm := 0, tmid_comm := 0, thgh_comm := 1 }

/-- A malformed proof: five public values against an evaluation domain of size 3. -/
def proofMal : PlonkPairing.ProverProof Fc Fc Unit :=
  { proof0 with public := [1, 2, 3, 4, 5] }

/-- The oracles derived for `proof0` under `chalc`. -/
def o0 : PlonkPairing.RandomOracles Fc := (PlonkPairing.oraclesAux chalc index0 proof0).1

/-- A trivial concrete linearizer collaborator. -/
def lin0 : Kimchi.KDomain → Bool → Unit → Unit × Unit := fun _ _ _ => ((), ())

/-- A concrete constraint system with one public input over a domain of size 16. -/
def cs161 : Kimchi.ConstraintSystem Unit Unit :=
  { public := 1, domain := { d1 := { size := 16 } }, endo := (), chacha8 := none,
    lookup_constraint_system := () }

/-- As `cs161` but with zero public inputs. -/
def cs160 : Kimchi.ConstraintSystem Unit Unit := { cs161 with public := 0 }

/-- A concrete constraint system with zero public inputs over a domain of size 8. -/
def cs8 : Kimchi.ConstraintSystem Unit Unit :=
  { public := 0, domain := { d1 := { size := 8 } }, endo := (), chacha8 := none,
    lookup_constraint_system := () }

/-- A commitment setup with basis size 8. -/
def srs8 : Kimchi.SRS Unit := { g := List.replicate 8 () }

/-- A commitment setup with an empty basis. -/
def srs0 : Kimchi.SRS Unit := { g := [] }

/-- The index produced for `cs8` and `srs0`. -/
def idx8 : Kimchi.ProverIndex Unit Unit Unit Unit Unit Unit :=
  { cs := cs8, linearization := (), powers_of_alpha := (), srs := srs0,
    max_poly_size := 0, max_quot_size := 56, fq_sponge_params := () }

/-! Theorems. -/

open PlonkPairing Kimchi

/-- Evaluating `multi_scalar_mul` on three points. -/
theorem multi_scalar_mul_three {F G : Type} [Field F] [AddCommGroup G] [Module F G]
    (x y z : G) (a b : F) :
    multi_scalar_mul [x, y, z] [(1 : F), a, b] = x + a • y + b • z := by
  simp [multi_scalar_mul]

/-- The batch-building loop of `verify` never fails and appends, for each proof in
order, the two entries built from that proof's oracles. -/
theorem verifyBatchList_ok {F G P Prf : Type} [Field F] [AddCommGroup G] [Module F G]
    (chal : P → List (SpongeOp F G) → F) (interp : Domain F → List F → F → F)
    (index : Index F G P) :
    ∀ (proofs : List (ProverProof F G Prf)) (acc : List (BatchEntry F G Prf)),
      verifyBatchList chal interp index proofs acc =
        Except.ok (acc ++ proofs.flatMap
          (fun p => proofEntries interp index (oraclesAux chal index p).1 p)) := by
  intro proofs
  induction proofs with
  | nil => intro acc; simp [verifyBatchList]
  | cons p ps ih =>
    intro acc
    rw [verifyBatchList]
    simp only [ProverProof.oracles, ih, List.flatMap_cons, List.append_assoc]

/-- `verify` is the batched check applied to the batch the loop builds. -/
theorem verify_eq_of_batch {F G P Prf : Type} [Field F] [AddCommGroup G] [Module F G]
    (chal : P → List (SpongeOp F G) → F) (interp : Domain F → List F → F → F)
    (ursVerify : List (BatchEntry F G Prf) → Bool)
    (proofs : List (ProverProof F G Prf)) (index : Index F G P)
    (B : List (BatchEntry F G Prf))
    (hB : verifyBatchList chal interp index proofs [] = Except.ok B) :
    ProverProof.verify chal interp ursVerify proofs index =
      (if ursVerify B = true then Except.ok true else Except.error ProofError.OpenProof) := by
  unfold ProverProof.verify
  rw [hB]
  cases h : ursVerify B <;> simp [h]

/-- C1: for every proof in the batch, verify reconstructs the claimed
quotient-polynomial evaluation t as
(r_eval + public_eval - ab * (c_eval + gamma) * z_eval - L1(zeta)) / (zeta^n - 1),
where ab = (a_eval + beta * sigma1_eval + gamma) * (b_eval + beta * sigma2_eval + gamma) * alpha,
public_eval is the interpolation of the proof's public values evaluated at zeta, and n
is the evaluation-domain size. -/
theorem verify_quotient_eval_formula {F G P Prf : Type} [Field F] [AddCommGroup G]
    [Module F G] (chal : P → List (SpongeOp F G) → F)
    (interp : Domain F → List F → F → F) (index : Index F G P)
    (proofs : List (ProverProof F G Prf)) (proof : ProverProof F G Prf)
    (o : RandomOracles F) (hp : proof ∈ proofs)
    (ho : o = (oraclesAux chal index proof).1) :
    ∃ B, verifyBatchList chal interp index proofs [] = Except.ok B ∧
      ∃ e, e ∈ B ∧
        e.items.head? = some
          (t_comm index o proof,
           (proof.evals.r + interp index.domain proof.public o.zeta -
             ((proof.evals.a + o.beta * proof.evals.sigma1 + o.gamma) *
                (proof.evals.b + o.beta * proof.evals.sigma2 + o.gamma) * o.alpha) *
               (proof.evals.c + o.gamma) * proof.evals.z -
             index.l1 o.zeta) / (o.zeta ^ index.domain.size - 1),
           none) := by
  subst ho
  refine ⟨_, verifyBatchList_ok chal interp index proofs [], ?_⟩
  rw [List.nil_append]
  refine ⟨_, List.mem_flatMap.mpr ⟨proof, hp, List.mem_cons_self _ _⟩, ?_⟩
  rfl

/-- C1 witness: the formula instantiated at the concrete proof and index. -/
theorem verify_quotient_eval_formula_witness :
    ∃ B, verifyBatchList chalc interpc index0 [proof0] [] = Except.ok B ∧
      ∃ e, e ∈ B ∧
        e.items.head? = some
          (t_comm index0 o0 proof0,
           (proof0.evals.r + interpc index0.domain proof0.public o0.zeta -
             ((proof0.evals.a + o0.beta * proof0.evals.sigma1 + o0.gamma) *
                (proof0.evals.b + o0.beta * proof0.evals.sigma2 + o0.gamma) * o0.alpha) *
               (proof0.evals.c + o0.gamma) * proof0.evals.z -
             index0.l1 o0.zeta) / (o0.zeta ^ index0.domain.size - 1),
           none) :=
  verify_quotient_eval_formula chalc interpc index0 [proof0] proof0 o0
    (List.mem_singleton.mpr rfl) rfl

/-- C2 counterexample: at a concrete instance with zeta = 2 and domain size n = 3, the
quotient commitment submitted by verify differs from the combination of the chunk
commitments with weights 1, zeta^n, zeta^(2n): the source computes the third weight as
(zeta^n)^n, and 2^9 = 6 while 2^6 = 9 in the field with 11 elements. -/
theorem quotient_comm_weights_counterexample :
    (oraclesAux chalTwo index0 proofC2).1.zeta = 2 ∧
    index0.domain.size = 3 ∧
    firstTComm (verifyBatchList chalTwo interpc index0 [proofC2] []) =
      some (t_comm index0 (oraclesAux chalTwo index0 proofC2).1 proofC2) ∧
    t_comm index0 (oraclesAux chalTwo index0 proofC2).1 proofC2 ≠
      proofC2.tlow_comm + ((2 : Fc) ^ 3) • proofC2.tmid_comm +
        ((2 : Fc) ^ (2 * 3)) • proofC2.thgh_comm := by
  refine ⟨rfl, rfl, rfl, ?_⟩
  decide

/-- C2 amended: for every proof in the batch, verify reconstructs the quotient
commitment as the weighted homomorphic combination of the three quotient chunk
commitments with scalar weights 1, zeta^n and (zeta^n)^n, where n is the
evaluation-domain size. -/
theorem verify_quotient_comm_weights {F G P Prf : Type} [Field F] [AddCommGroup G]
    [Module F G] (chal : P → List (SpongeOp F G) → F)
    (interp : Domain F → List F → F → F) (index : Index F G P)
    (proofs : List (ProverProof F G Prf)) (proof : ProverProof F G Prf)
    (o : RandomOracles F) (hp : proof ∈ proofs)
    (ho : o = (oraclesAux chal index proof).1) :
    ∃ B, verifyBatchList chal interp index proofs [] = Except.ok B ∧
      ∃ e, e ∈ B ∧
        e.items.head? = some
          (proof.tlow_comm + (o.zeta ^ index.domain.size) • proof.tmid_comm +
            ((o.zeta ^ index.domain.size) ^ index.domain.size) • proof.thgh_comm,
           t_eval interp index o proof, none) := by
  subst ho
  refine ⟨_, verifyBatchList_ok chal interp index proofs [], ?_⟩
  rw [List.nil_append]
  refine ⟨_, List.mem_flatMap.mpr ⟨proof, hp, List.mem_cons_self _ _⟩, ?_⟩
  show some (t_comm index _ proof, _, _) = _
  rw [t_comm, multi_scalar_mul_three]

/-- C2 witness for the amended claim, at the concrete proof and index. -/
theorem verify_quotient_comm_weights_witness :
    ∃ B, verifyBatchList chalc interpc index0 [proof0] [] = Except.ok B ∧
      ∃ e, e ∈ B ∧
        e.items.head? = some
          (proof0.tlow_comm + (o0.zeta ^ index0.domain.size) • proof0.tmid_comm +
            ((o0.zeta ^ index0.domain.size) ^ index0.domain.size) • proof0.thgh_comm,
           t_eval interpc index0 o0 proof0, none) :=
  verify_quotient_comm_weights chalc interpc index0 [proof0] proof0 o0
    (List.mem_singleton.mpr rfl) rfl

/-- C3: for every proof and index, oracles performs exactly these transcript steps in
exactly this order: absorb the public inputs; absorb the three witness-column
commitments; squeeze beta then gamma; absorb the permutation-accumulator commitment;
squeeze alpha; absorb the three quotient chunk commitments; squeeze zeta then v — and
each challenge is the squeeze of exactly that prefix of the transcript. -/
theorem oracles_transcript_order {F G P Prf : Type} [Field F] [AddCommGroup G]
    [Module F G] (chal : P → List (SpongeOp F G) → F) (index : Index F G P)
    (proof : ProverProof F G Prf) :
    (oraclesAux chal index proof).2.trace =
      [SpongeOp.absorbFr proof.public,
       SpongeOp.absorbG [proof.a_comm, proof.b_comm, proof.c_comm],
       SpongeOp.squeeze, SpongeOp.squeeze,
       SpongeOp.absorbG [proof.z_comm],
       SpongeOp.squeeze,
       SpongeOp.absorbG [proof.tlow_comm, proof.tmid_comm, proof.thgh_comm],
       SpongeOp.squeeze, SpongeOp.squeeze] ∧
    (oraclesAux chal index proof).1.beta =
      chal index.fq_sponge_params
        [SpongeOp.absorbFr proof.public,
         SpongeOp.absorbG [proof.a_comm, proof.b_comm, proof.c_comm],
         SpongeOp.squeeze] ∧
    (oraclesAux chal index proof).1.gamma =
      chal index.fq_sponge_params
        [SpongeOp.absorbFr proof.public,
         SpongeOp.absorbG [proof.a_comm, proof.b_comm, proof.c_comm],
         SpongeOp.squeeze, SpongeOp.squeeze] ∧
    (oraclesAux chal index proof).1.alpha =
      chal index.fq_sponge_params
        [SpongeOp.absorbFr proof.public,
         SpongeOp.absorbG [proof.a_comm, proof.b_comm, proof.c_comm],
         SpongeOp.squeeze, SpongeOp.squeeze,
         SpongeOp.absorbG [proof.z_comm],
         SpongeOp.squeeze] ∧
    (oraclesAux chal index proof).1.zeta =
      chal index.fq_sponge_params
        [SpongeOp.absorbFr proof.public,
         SpongeOp.absorbG [proof.a_comm, proof.b_comm, proof.c_comm],
         SpongeOp.squeeze, SpongeOp.squeeze,
         SpongeOp.absorbG [proof.z_comm],
         SpongeOp.squeeze,
         SpongeOp.absorbG [proof.tlow_comm, proof.tmid_comm, proof.thgh_comm],
         SpongeOp.squeeze] ∧
    (oraclesAux chal index proof).1.v =
      chal index.fq_sponge_params
        [SpongeOp.absorbFr proof.public,
         SpongeOp.absorbG [proof.a_comm, proof.b_comm, proof.c_comm],
         SpongeOp.squeeze, SpongeOp.squeeze,
         SpongeOp.absorbG [proof.z_comm],
         SpongeOp.squeeze,
         SpongeOp.absorbG [proof.tlow_comm, proof.tmid_comm, proof.thgh_comm],
         SpongeOp.squeeze, SpongeOp.squeeze] :=
  ⟨rfl, rfl, rfl, rfl, rfl, rfl⟩

/-- C5: verify returns the opening-proof-invalid error exactly when the batched
cryptographic check over the accumulated batch returns false, returns Ok(true) when it
returns true, and never returns Ok(false). -/
theorem verify_openproof_dichotomy {F G P Prf : Type} [Field F] [AddCommGroup G]
    [Module F G] (chal : P → List (SpongeOp F G) → F)
    (interp : Domain F → List F → F → F)
    (ursVerify : List (BatchEntry F G Prf) → Bool)
    (proofs : List (ProverProof F G Prf)) (index : Index F G P) :
    ∃ B, verifyBatchList chal interp index proofs [] = Except.ok B ∧
      ProverProof.verify chal interp ursVerify proofs index =
        (if ursVerify B = true then Except.ok true
         else Except.error ProofError.OpenProof) ∧
      ProverProof.verify chal interp ursVerify proofs index ≠ Except.ok false := by
  refine ⟨_, verifyBatchList_ok chal interp index proofs [], ?_, ?_⟩
  · exact verify_eq_of_batch chal interp ursVerify proofs index _
      (verifyBatchList_ok chal interp index proofs [])
  · rw [verify_eq_of_batch chal interp ursVerify proofs index _
      (verifyBatchList_ok chal interp index proofs [])]
    split <;> simp

/-- C6: the batch the loop builds consists, for each proof in order, of exactly two
entries: one at zeta with the seven pairs (quotient commitment, t), (linearization
commitment, r_eval), the three witness commitments with a_eval, b_eval, c_eval, and the
first two permutation commitments with sigma1_eval, sigma2_eval; and one at
zeta * group_gen with only (z_comm, z_eval); a batch of N proofs has 2N entries. -/
theorem verify_two_entries_per_proof {F G P Prf : Type} [Field F] [AddCommGroup G]
    [Module F G] (chal : P → List (SpongeOp F G) → F)
    (interp : Domain F → List F → F → F) (index : Index F G P)
    (proofs : List (ProverProof F G Prf)) :
    verifyBatchList chal interp index proofs [] =
      Except.ok (proofs.flatMap
        (fun p => proofEntries interp index (oraclesAux chal index p).1 p)) ∧
    (proofs.flatMap
      (fun p => proofEntries interp index (oraclesAux chal index p).1 p)).length =
      2 * proofs.length ∧
    ∀ (o : RandomOracles F) (p : ProverProof F G Prf),
      proofEntries interp index o p =
        [{ pt := o.zeta, v := o.v,
           items :=
             [(t_comm index o p, t_eval interp index o p, none),
              (r_comm index o p, p.evals.r, none),
              (p.a_comm, p.evals.a, none),
              (p.b_comm, p.evals.b, none),
              (p.c_comm, p.evals.c, none),
              (index.sigma_comm 0, p.evals.sigma1, none),
              (index.sigma_comm 1, p.evals.sigma2, none)],
           opening := p.proof1 },
         { pt := o.zeta * index.domain.group_gen, v := o.v,
           items := [(p.z_comm, p.evals.z, none)],
           opening := p.proof2 }] := by
  refine ⟨by simpa using verifyBatchList_ok chal interp index proofs [], ?_,
    fun o p => rfl⟩
  induction proofs with
  | nil => rfl
  | cons p ps ih =>
    rw [List.flatMap_cons, List.length_append, ih]
    simp only [proofEntries, List.length_cons, List.length_nil, List.length_singleton]
    omega

/-- C8 counterexample: a batch containing a malformed proof (five public values against
an evaluation domain of size 3) is not detected: verify submits it to the batched check
unchanged, returning Ok(true) when the check accepts and the opening-proof-invalid
error when it rejects — never a distinct malformed-proof error. -/
theorem malformed_detection_counterexample :
    proofMal.public.length = 5 ∧ index0.domain.size = 3 ∧
    ProverProof.verify chalc interpc (fun _ => true) [proofMal] index0 =
      Except.ok true ∧
    ProverProof.verify chalc interpc (fun _ => false) [proofMal] index0 =
      Except.error ProofError.OpenProof :=
  ⟨rfl, rfl, rfl, rfl⟩

/-- C8 amended: verify performs no malformed-proof detection: the proof type fixes the
number and shape of commitments and evaluations, every proof is submitted to the
batched cryptographic check, and the only error verify can return is the
opening-proof-invalid error ProofError.OpenProof. -/
theorem verify_errors_only_openproof {F G P Prf : Type} [Field F] [AddCommGroup G]
    [Module F G] (chal : P → List (SpongeOp F G) → F)
    (interp : Domain F → List F → F → F)
    (ursVerify : List (BatchEntry F G Prf) → Bool)
    (proofs : List (ProverProof F G Prf)) (index : Index F G P) (e : ProofError)
    (h : ProverProof.verify chal interp ursVerify proofs index = Except.error e) :
    e = ProofError.OpenProof := by
  rw [verify_eq_of_batch chal interp ursVerify proofs index _
    (verifyBatchList_ok chal interp index proofs [])] at h
  split at h
  · exact absurd h (by simp)
  · cases h
    rfl

/-- C8 witness for the amended claim: at a concrete input where the batched check
rejects, the only error produced is OpenProof. -/
theorem verify_errors_only_openproof_witness :
    ProverProof.verify chalc interpc (fun _ => false) [proofMal] index0 =
      Except.error ProofError.OpenProof ∧
    ProofError.OpenProof = ProofError.OpenProof :=
  ⟨rfl, verify_errors_only_openproof chalc interpc (fun _ => false) [proofMal] index0
    ProofError.OpenProof rfl⟩

/-- C9: the oracles derivation is a pure function of the proof's public values, its
eight commitments and the index's sponge parameters: two calls agreeing on those
return identical Oracles, and each call runs its own sponge freshly constructed from
the index's parameters. -/
theorem oracles_pure_function {F G P Prf : Type} [Field F] [AddCommGroup G] [Module F G]
    (chal : P → List (SpongeOp F G) → F) (p q : ProverProof F G Prf)
    (i j : Index F G P)
    (h1 : p.public = q.public) (h2 : p.a_comm = q.a_comm) (h3 : p.b_comm = q.b_comm)
    (h4 : p.c_comm = q.c_comm) (h5 : p.z_comm = q.z_comm)
    (h6 : p.tlow_comm = q.tlow_comm) (h7 : p.tmid_comm = q.tmid_comm)
    (h8 : p.thgh_comm = q.thgh_comm)
    (h9 : i.fq_sponge_params = j.fq_sponge_params) :
    ProverProof.oracles chal i p = ProverProof.oracles chal j q := by
  unfold ProverProof.oracles oraclesAux
  simp only [FqSpongeState.new, FqSpongeState.absorb_fr, FqSpongeState.absorb_g,
    FqSpongeState.challenge, h1, h2, h3, h4, h5, h6, h7, h8, h9]

/-- C9 witness: two proofs differing in their claimed evaluations but agreeing on the
public values and all commitments receive identical oracles. -/
theorem oracles_pure_function_witness :
    proof0.evals.r ≠ proof0var.evals.r ∧
    ProverProof.oracles chalc index0 proof0 =
      ProverProof.oracles chalc index0 proof0var :=
  ⟨by decide, oracles_pure_function chalc proof0 proof0var index0 index0
    rfl rfl rfl rfl rfl rfl rfl rfl rfl⟩

/-- C4: constructing a prover index when the constraint system declares public inputs
and the commitment setup's basis size is smaller than the evaluation-domain size fails
immediately at index-assembly time with the configuration error. -/
theorem create_capacity_check {F G P Lin Alph LCS : Type}
    (lin : KDomain → Bool → LCS → Lin × Alph) (cs : ConstraintSystem F LCS)
    (fqp : P) (endo_q : F) (srs : Kimchi.SRS G)
    (hpub : 0 < cs.public) (hsrs : srs.g.length < cs.domain.d1.size) :
    ProverIndex.create lin cs fqp endo_q srs = Except.error ConfigError.SrsTooSmall := by
  simp only [ProverIndex.create]
  rw [if_pos ⟨hpub, hsrs⟩]

/-- C4 witness: domain size 16, basis size 8, public = 1 makes construction fail. -/
theorem create_capacity_check_witness :
    0 < cs161.public ∧ srs8.g.length < cs161.domain.d1.size ∧
    cs161.domain.d1.size = 16 ∧ srs8.g.length = 8 ∧ cs161.public = 1 ∧
    ProverIndex.create lin0 cs161 () () srs8 = Except.error ConfigError.SrsTooSmall :=
  ⟨by decide, by decide, by decide, by decide, by decide,
   create_capacity_check lin0 cs161 () () srs8 (by decide) (by decide)⟩

/-- C7: ProverIndex.create sets max_quot_size to PERMUTS times the evaluation-domain
size. -/
theorem create_max_quot_size {F G P Lin Alph LCS : Type}
    (lin : KDomain → Bool → LCS → Lin × Alph) (cs : ConstraintSystem F LCS)
    (fqp : P) (endo_q : F) (srs : Kimchi.SRS G)
    (idx : ProverIndex F G P Lin Alph LCS)
    (h : ProverIndex.create lin cs fqp endo_q srs = Except.ok idx) :
    idx.max_quot_size = PERMUTS * cs.domain.d1.size := by
  simp only [ProverIndex.create] at h
  by_cases hcond : 0 < cs.public ∧ srs.g.length < cs.domain.d1.size
  · rw [if_pos hcond] at h
    cases h
  · rw [if_neg hcond] at h
    cases h
    rfl

/-- C7 witness: for domain size 8 and permutation width 7, the returned index has
max_quot_size = 56. -/
theorem create_max_quot_size_witness :
    ProverIndex.create lin0 cs8 () () srs0 = Except.ok idx8 ∧
    cs8.domain.d1.size = 8 ∧ PERMUTS = 7 ∧
    idx8.max_quot_size = PERMUTS * cs8.domain.d1.size ∧
    idx8.max_quot_size = 56 :=
  ⟨rfl, rfl, rfl,
   create_max_quot_size lin0 cs8 () () srs0 idx8 rfl, rfl⟩

/-- C10: if the constraint system declares zero public inputs, the capacity check never
fires: construction succeeds even when the commitment setup's basis size is strictly
smaller than the evaluation-domain size. -/
theorem create_zero_public_no_capacity_check {F G P Lin Alph LCS : Type}
    (lin : KDomain → Bool → LCS → Lin × Alph) (cs : ConstraintSystem F LCS)
    (fqp : P) (endo_q : F) (srs : Kimchi.SRS G)
    (hpub : cs.public = 0) :
    ∃ idx, ProverIndex.create lin cs fqp endo_q srs = Except.ok idx := by
  refine ⟨{ cs := { cs with endo := endo_q },
            linearization := (lin cs.domain.d1 cs.chacha8.isSome
              cs.lookup_constraint_system).1,
            powers_of_alpha := (lin cs.domain.d1 cs.chacha8.isSome
              cs.lookup_constraint_system).2,
            srs := srs, max_poly_size := srs.g.length,
            max_quot_size := PERMUTS * cs.domain.d1.size, fq_sponge_params := fqp }, ?_⟩
  simp only [ProverIndex.create]
  rw [if_neg (by simp [hpub])]

/-- C10 witness: with zero public inputs, domain size 16 and basis size 8, construction
succeeds. -/
theorem create_zero_public_no_capacity_check_witness :
    srs8.g.length < cs160.domain.d1.size ∧ cs160.public = 0 ∧
    ∃ idx, ProverIndex.create lin0 cs160 () () srs8 = Except.ok idx :=
  ⟨by decide, rfl, create_zero_public_no_capacity_check lin0 cs160 () () srs8 rfl⟩
